import Mathlib

/-!
Verification of the neural-network model builder
(`coremltools/models/neural_network.py`, class `NeuralNetworkBuilder`).

The builder mutates an in-memory protobuf `Model` message.  We embed the
relevant protobuf state shallowly:

* the `Model` message with its `description` (input/output feature slots,
  predicted-feature names), the classifier class-label vectors, and the
  ordered layer list;
* every layer carries exactly one populated parameter variant, mirroring the
  protobuf `oneof` of `NeuralNetworkLayer`.

Numeric tensors are modelled over an arbitrary scalar type `α` with a
decidable zero test: the builder never computes with scalar values, it only
copies them (`float(x)` is the identity on Python floats) and tests them
against zero (`ndarray.any()`), so any such `α` models the payload exactly.
A 4-dimensional numpy array is a `Tensor4`: explicit dimensions plus an entry
function; `flatten` is numpy's row-major (C-order) flatten.

Each builder method raises Python exceptions after having performed some
in-place mutations; mutations performed before a raise persist.  Every
operation is therefore modelled as a function returning
`Option PyError × Model α`: the first component is the raised exception (if
any), the second the document state after the call, including any partial
mutation made before the raise.
-/

/-- Python exception kinds raised by the builder (or by the protobuf runtime
when a value of the wrong type is appended to a typed repeated field). -/
inductive PyError where
  | typeError
  | valueError
  | notImplementedError
  | runtimeError
  | indexError
deriving DecidableEq

/-- A 4-dimensional numpy array: dimensions and an entry function.
`entry i j k l` is the element at index `(i, j, k, l)`. -/
structure Tensor4 (α : Type) where
  d0 : Nat
  d1 : Nat
  d2 : Nat
  d3 : Nat
  entry : Nat → Nat → Nat → Nat → α

/-- numpy's `flatten()`: row-major (C-order) enumeration of all entries. -/
def Tensor4.flatten {α : Type} (t : Tensor4 α) : List α :=
  (List.range t.d0).flatMap fun i =>
    (List.range t.d1).flatMap fun j =>
      (List.range t.d2).flatMap fun k =>
        (List.range t.d3).map fun l => t.entry i j k l

/-- numpy's `W.transpose((3,2,0,1))`: axis `p` of the result is axis `3-p`...
precisely, the result has shape `(d3, d2, d0, d1)` and
`result[a,b,c,d] = W[c,d,b,a]`. -/
def Tensor4.transpose3201 {α : Type} (t : Tensor4 α) : Tensor4 α :=
  ⟨t.d3, t.d2, t.d0, t.d1, fun a b c d => t.entry c d b a⟩

/-- numpy's `W.transpose((2,3,0,1))`: the result has shape `(d2, d3, d0, d1)`
and `result[a,b,c,d] = W[c,d,a,b]`. -/
def Tensor4.transpose2301 {α : Type} (t : Tensor4 α) : Tensor4 α :=
  ⟨t.d2, t.d3, t.d0, t.d1, fun a b c d => t.entry c d a b⟩

/-- numpy's `W[0, 0, lo:hi, :].flatten()` on a 4-D array: the rows `lo` up to
`hi` (clamped at the actual axis length `d2`) of the slice at leading indices
`(0,0)`, flattened row-major. -/
def npSlice4 {α : Type} (t : Tensor4 α) (lo hi : Nat) : List α :=
  (List.range (min hi t.d2 - lo)).flatMap fun r =>
    (List.range t.d3).map fun c => t.entry 0 0 (lo + r) c

/-- numpy's `v[lo:hi]` on a 1-D array (slices clamp at the array length). -/
def npSlice1 {α : Type} (v : List α) (lo hi : Nat) : List α :=
  (v.drop lo).take (hi - lo)

/-- Python's `b is not None and b.any()` for an optional numpy vector:
true iff the vector is present and has at least one non-zero element. -/
def npAnyOpt {α : Type} [DecidableEq α] [Zero α] (b : Option (List α)) : Bool :=
  match b with
  | none => false
  | some v => v.any fun x => decide (x ≠ 0)

/-- The values of an optional numpy vector (only ever read on paths where the
vector is known to be present). -/
def optVals {α : Type} (b : Option (List α)) : List α := b.getD []

/-! ## Feature types and the model description -/

/-- `ArrayFeatureType.dataType` values used by the builder. -/
inductive ArrayDataType where
  | invalid
  | double
deriving DecidableEq

/-- The key type of a protobuf `DictionaryFeatureType` (`oneof KeyType`). -/
inductive DictKeyType where
  | noKey
  | int64Key
  | stringKey
deriving DecidableEq

/-- The `oneof Type` of a protobuf `FeatureType`. -/
inductive FeatureType where
  | unset
  | multiArray (shape : List Nat) (dataType : ArrayDataType)
  | dictionary (keyType : DictKeyType)
  | int64
  | stringType
deriving DecidableEq

/-- `feature.type.dictionaryType.MergeFromString('')`: accessing the
`dictionaryType` member of the `oneof` switches the feature type to an empty
dictionary type unless it already is a dictionary type (merging the empty
message changes nothing). -/
def mergeDictType : FeatureType → FeatureType
  | .dictionary k => .dictionary k
  | _ => .dictionary .noKey

def FeatureType.isDictionary : FeatureType → Bool
  | .dictionary _ => true
  | _ => false

/-- One named, typed feature slot of the model interface. -/
structure FeatureSlot where
  name : String
  type : FeatureType
deriving DecidableEq

/-- `spec.description`: interface slots plus the classifier feature names. -/
structure ModelDescription where
  input : List FeatureSlot
  output : List FeatureSlot
  predictedFeatureName : String := ""
  predictedProbabilitiesName : String := ""
deriving DecidableEq

/-- The class-label vectors of a `NeuralNetworkClassifier`
(`oneof ClassLabels`). -/
inductive ClassLabels where
  | unset
  | int64Labels (vector : List Int)
  | stringLabels (vector : List String)
deriving DecidableEq

/-! ## Layer parameter payloads -/

/-- Only `'BOTTOM_RIGHT_HEAVY'` is ever written by the builder. -/
inductive SamePaddingMode where
  | bottomRightHeavy
deriving DecidableEq

/-- The `oneof ConvolutionPaddingType` of `ConvolutionLayerParams`: on the
unsupported-border-mode path neither member is populated. `valid` carries its
`paddingAmounts.borderAmounts` as (startEdgeSize, endEdgeSize) pairs. -/
inductive ConvPadding where
  | unset
  | valid (borderAmounts : List (Nat × Nat))
  | same (asymmetryMode : SamePaddingMode)
deriving DecidableEq

structure InnerProductLayerParams (α : Type) where
  inputChannels : Nat := 0
  outputChannels : Nat := 0
  hasBias : Bool := false
  weights : List α := []
  bias : List α := []
deriving DecidableEq

structure ConvolutionLayerParams (α : Type) where
  isDeconvolution : Bool := false
  outputShape : List Nat := []
  outputChannels : Nat := 0
  kernelChannels : Nat := 0
  kernelSize : List Nat := []
  stride : List Nat := []
  padding : ConvPadding := .unset
  nGroups : Nat := 0
  hasBias : Bool := false
  weights : List α := []
  bias : List α := []
deriving DecidableEq

/-- The activation variants reachable through `_set_recurrent_activation`;
`unset` models an activation message whose `oneof` was never populated. -/
inductive RecurrentActivation where
  | unset
  | sigmoid
  | tanh
  | linear
  | sigmoidHard
  | scaledTanh
  | relu
deriving DecidableEq

structure SimpleRecurrentLayerParams (α : Type) where
  inputVectorSize : Nat := 0
  outputVectorSize : Nat := 0
  hasBiasVector : Bool := false
  sequenceOutput : Bool := false
  reverseInput : Bool := false
  activation : RecurrentActivation := .unset
  weightMatrix : List α := []
  recursionMatrix : List α := []
  biasVector : List α := []
deriving DecidableEq

structure GRULayerParams (α : Type) where
  inputVectorSize : Nat := 0
  outputVectorSize : Nat := 0
  hasBiasVectors : Bool := false
  sequenceOutput : Bool := false
  reverseInput : Bool := false
  activations : List RecurrentActivation := []
  updateGateWeightMatrix : List α := []
  resetGateWeightMatrix : List α := []
  outputGateWeightMatrix : List α := []
  updateGateRecursionMatrix : List α := []
  resetGateRecursionMatrix : List α := []
  outputGateRecursionMatrix : List α := []
  updateGateBiasVector : List α := []
  resetGateBiasVector : List α := []
  outputGateBiasVector : List α := []
deriving DecidableEq

/-- `LSTMParams` shared by the unidirectional and bidirectional LSTM layers.
`cellClipThreshold` is a scalar copied verbatim, hence of type `α`. -/
structure LSTMParams (α : Type) where
  sequenceOutput : Bool := false
  hasBiasVectors : Bool := false
  forgetBias : Bool := false
  hasPeepholeVectors : Bool := false
  coupledInputAndForgetGate : Bool := false
  cellClipThreshold : α
deriving DecidableEq

structure LSTMWeightParams (α : Type) where
  inputGateWeightMatrix : List α := []
  forgetGateWeightMatrix : List α := []
  outputGateWeightMatrix : List α := []
  blockInputWeightMatrix : List α := []
  inputGateRecursionMatrix : List α := []
  forgetGateRecursionMatrix : List α := []
  outputGateRecursionMatrix : List α := []
  blockInputRecursionMatrix : List α := []
  inputGateBiasVector : List α := []
  forgetGateBiasVector : List α := []
  outputGateBiasVector : List α := []
  blockInputBiasVector : List α := []
  inputGatePeepholeVector : List α := []
  forgetGatePeepholeVector : List α := []
  outputGatePeepholeVector : List α := []
deriving DecidableEq

structure UniDirectionalLSTMLayerParams (α : Type) where
  inputVectorSize : Nat := 0
  outputVectorSize : Nat := 0
  params : LSTMParams α
  reverseInput : Bool := false
  activations : List RecurrentActivation := []
  weightParams : LSTMWeightParams α := {}
deriving DecidableEq

structure BiDirectionalLSTMLayerParams (α : Type) where
  inputVectorSize : Nat := 0
  outputVectorSize : Nat := 0
  params : LSTMParams α
  activationsForwardLSTM : List RecurrentActivation := []
  activationsBackwardLSTM : List RecurrentActivation := []
  weightParams : List (LSTMWeightParams α) := []
deriving DecidableEq

/-- The `oneof layer` of `NeuralNetworkLayer`, restricted to the variants the
modelled operations populate.  The element-wise modes `CONCAT`,
`SEQUENCE_CONCAT`, `ADD`, `MULTIPLY`, `DOT`, `COS`, `MAX`, `AVE` map to the
variants `concat`, `add`, `multiply`, `dot`, `max`, `average`.  `unset` is a
layer whose parameter `oneof` was never populated (only reachable on the
unsupported-element-wise-mode error path). -/
inductive LayerParams (α : Type) where
  | unset
  | innerProduct (p : InnerProductLayerParams α)
  | concat (sequenceConcat : Bool)
  | add
  | multiply
  | dot (cosineSimilarity : Bool)
  | max
  | average
  | convolution (p : ConvolutionLayerParams α)
  | simpleRecurrent (p : SimpleRecurrentLayerParams α)
  | gru (p : GRULayerParams α)
  | uniDirectionalLSTM (p : UniDirectionalLSTMLayerParams α)
  | biDirectionalLSTM (p : BiDirectionalLSTMLayerParams α)
deriving DecidableEq

/-- The kind tag of a layer: which parameter variant is populated. -/
inductive LayerKind where
  | unset
  | innerProduct
  | concat
  | add
  | multiply
  | dot
  | max
  | average
  | convolution
  | simpleRecurrent
  | gru
  | uniDirectionalLSTM
  | biDirectionalLSTM
deriving DecidableEq

def LayerParams.kind {α : Type} : LayerParams α → LayerKind
  | .unset => .unset
  | .innerProduct _ => .innerProduct
  | .concat _ => .concat
  | .add => .add
  | .multiply => .multiply
  | .dot _ => .dot
  | .max => .max
  | .average => .average
  | .convolution _ => .convolution
  | .simpleRecurrent _ => .simpleRecurrent
  | .gru _ => .gru
  | .uniDirectionalLSTM _ => .uniDirectionalLSTM
  | .biDirectionalLSTM _ => .biDirectionalLSTM

/-- One `NeuralNetworkLayer`: name, input blob names, output blob names, and
exactly one parameter variant. -/
structure Layer (α : Type) where
  name : String
  input : List String
  output : List String
  params : LayerParams α
deriving DecidableEq

/-- The builder's protobuf state (`self.spec` together with the
`self.nn_spec` it aliases).  The builder is modelled in classifier mode, so
the class-label vectors of `NeuralNetworkClassifier` are available; the layer
list is shared by all three network variants. -/
structure Model (α : Type) where
  specificationVersion : Nat
  description : ModelDescription
  classLabels : ClassLabels := .unset
  layers : List (Layer α) := []
deriving DecidableEq

/-- `nn_spec.layers.add()` followed by filling in the layer's fields: the
mutated layer object is the one stored in the repeated field, so the final
state holds the layer in its final (possibly partial) form. -/
def Model.appendLayer {α : Type} (spec : Model α) (l : Layer α) : Model α :=
  { spec with layers := spec.layers ++ [l] }

/-! ## Builder operations

Each `NeuralNetworkBuilder.add_*` method first appends a fresh layer to
`nn_spec.layers` and then mutates it in place; a raise part-way through
leaves the partially filled layer in the list.  Each operation is therefore
split into a `*Make` function computing `(raised exception?, final parameter
payload)` and an `add_*` wrapper that appends the layer carrying that
payload. -/

/-- `_set_recurrent_activation`: maps the activation name to the populated
variant of the activation message; an unknown name raises `TypeError`
(modelled as `none`). -/
def set_recurrent_activation (activation : String) : Option RecurrentActivation :=
  if activation = "SIGMOID" then some .sigmoid
  else if activation = "TANH" then some .tanh
  else if activation = "LINEAR" then some .linear
  else if activation = "SIGMOID_HARD" then some .sigmoidHard
  else if activation = "SCALED_TANH" then some .scaledTanh
  else if activation = "RELU" then some .relu
  else none

/-! ### set_input / set_output

The source iterates `for idx, dim in enumerate(input_dims)` and mutates
`spec.description.input[idx]` (resp. `output[idx]`) in place.  We render the
index-based loop as a lockstep walk with an accumulator of already-processed
slots: slot `idx` of the protobuf repeated field is exactly the head of the
unprocessed remainder once `idx` slots have been accumulated, and indexing
past the end of the repeated field raises `IndexError`.  In `set_input` the
rank check on `dim` happens before the field is indexed. -/

/-- The `input_shape` computed by `set_input` for one `dim`: rank 3 and 1
pass through, rank 2 keeps `dim[1]` only, any other rank raises
`RuntimeError` (modelled as `none`). -/
def setInputShape (dim : List Nat) : Option (List Nat) :=
  if dim.length = 3 then some dim
  else if dim.length = 2 then some [dim.getD 1 0]
  else if dim.length = 1 then some dim
  else none

def setInputLoop : List FeatureSlot → List FeatureSlot → List (List Nat) →
    Option PyError × List FeatureSlot
  | acc, slots, [] => (none, acc ++ slots)
  | acc, slots, dim :: rest =>
    match setInputShape dim with
    | none => (some .runtimeError, acc ++ slots)
    | some shape =>
      match slots with
      | [] => (some .indexError, acc)
      | s :: ss =>
        setInputLoop (acc ++ [{ s with type := .multiArray shape .double }]) ss rest

/-- `set_input`: rewrites the type of input slot `idx` to a double
multi-array with the normalized shape, for each shape in `input_dims`.  The
`input_names` argument is accepted but never read by the source. -/
def NeuralNetworkBuilder.set_input {α : Type} (spec : Model α)
    (input_names : List String) (input_dims : List (List Nat)) :
    Option PyError × Model α :=
  let r := setInputLoop [] spec.description.input input_dims
  (r.1, { spec with description := { spec.description with input := r.2 } })

def setOutputLoop : List FeatureSlot → List FeatureSlot → List (List Nat) →
    Option PyError × List FeatureSlot
  | acc, slots, [] => (none, acc ++ slots)
  | acc, slots, dim :: rest =>
    match slots with
    | [] => (some .indexError, acc)
    | s :: ss =>
      setOutputLoop (acc ++ [{ s with type := .multiArray dim .double }]) ss rest

/-- `set_output`: rewrites the type of output slot `idx` to a double
multi-array with the given shape, verbatim — the source performs no rank
normalization and no rank validation on output shapes. -/
def NeuralNetworkBuilder.set_output {α : Type} (spec : Model α)
    (output_names : List String) (output_dims : List (List Nat)) :
    Option PyError × Model α :=
  let r := setOutputLoop [] spec.description.output output_dims
  (r.1, { spec with description := { spec.description with output := r.2 } })

/-! ### set_class_labels -/

/-- A Python object passed as a class label: an `int`, a `str`, or anything
else (`type(label)` not in `[int, str]`). -/
inductive PyLabel where
  | pyInt (n : Int)
  | pyStr (s : String)
  | pyOther
deriving DecidableEq

def PyLabel.isInt : PyLabel → Bool
  | .pyInt _ => true
  | _ => false

def PyLabel.isStr : PyLabel → Bool
  | .pyStr _ => true
  | _ => false

/-- `for c in class_labels: nn_spec.int64ClassLabels.vector.append(c)`:
protobuf type-checks each appended element; a non-`int` element raises
`TypeError`, keeping the elements appended so far. -/
def appendInt64Labels (acc : List Int) : List PyLabel → Option PyError × List Int
  | [] => (none, acc)
  | .pyInt n :: rest => appendInt64Labels (acc ++ [n]) rest
  | _ :: _ => (some .typeError, acc)

/-- `for c in class_labels: nn_spec.stringClassLabels.vector.append(c)`:
a non-`str` element raises `TypeError`, keeping the elements appended so
far. -/
def appendStringLabels (acc : List String) : List PyLabel → Option PyError × List String
  | [] => (none, acc)
  | .pyStr s :: rest => appendStringLabels (acc ++ [s]) rest
  | _ :: _ => (some .typeError, acc)

/-- `set_class_labels`.  Mirrors the source's mutation order: the first
output's type is switched to a dictionary type *before* the empty-list early
return and before the label-type check; the classifier feature names, the new
label output slot, the dictionary key type and the label-output type are all
written before the label vector is filled in element by element. -/
def NeuralNetworkBuilder.set_class_labels {α : Type} (spec : Model α)
    (class_labels : List PyLabel) (predicted_feature_name : String) :
    Option PyError × Model α :=
  match spec.description.output with
  | [] => (some .valueError, spec)
  | probOutput :: rest =>
    let probOutput1 := { probOutput with type := mergeDictType probOutput.type }
    let spec1 := { spec with
      description := { spec.description with output := probOutput1 :: rest } }
    match class_labels with
    | [] => (none, spec1)
    | l0 :: _ =>
      match l0 with
      | .pyOther => (some .typeError, spec1)
      | .pyInt _ =>
        let r := appendInt64Labels [] class_labels
        (r.1, { spec1 with
          description := { spec1.description with
            predictedProbabilitiesName := probOutput1.name,
            predictedFeatureName := predicted_feature_name,
            output := { probOutput1 with type := .dictionary .int64Key } ::
              rest ++ [⟨predicted_feature_name, .int64⟩] },
          classLabels := .int64Labels r.2 })
      | .pyStr _ =>
        let r := appendStringLabels [] class_labels
        (r.1, { spec1 with
          description := { spec1.description with
            predictedProbabilitiesName := probOutput1.name,
            predictedFeatureName := predicted_feature_name,
            output := { probOutput1 with type := .dictionary .stringKey } ::
              rest ++ [⟨predicted_feature_name, .stringType⟩] },
          classLabels := .stringLabels r.2 })

/-! ### add_inner_product -/

/-- `add_inner_product` parameter payload.  `W` and `Wb` are passed in their
row-major flattened form (the source stores `W.flatten()` of the caller's
`(nB, nC)` matrix and `Wb.flatten()` of the bias vector). -/
def innerProductMake {α : Type} (W Wb : List α) (nB nC : Nat) (has_bias : Bool) :
    Option PyError × InnerProductLayerParams α :=
  (none, { inputChannels := nB, outputChannels := nC, hasBias := has_bias,
           weights := W, bias := if has_bias then Wb else [] })

def NeuralNetworkBuilder.add_inner_product {α : Type} (spec : Model α) (name : String)
    (W Wb : List α) (nB nC : Nat) (has_bias : Bool)
    (input_name output_name : String) : Option PyError × Model α :=
  let r := innerProductMake W Wb nB nC has_bias
  (r.1, spec.appendLayer ⟨name, [input_name], [output_name], .innerProduct r.2⟩)

/-! ### add_elementwise -/

/-- The parameter variant written by `add_elementwise` for each mode; an
unsupported mode raises `ValueError`, leaving the layer's parameter `oneof`
unpopulated. -/
def elementwiseParamsOf {α : Type} (mode : String) : Option PyError × LayerParams α :=
  if mode = "CONCAT" then (none, .concat false)
  else if mode = "SEQUENCE_CONCAT" then (none, .concat true)
  else if mode = "ADD" then (none, .add)
  else if mode = "MULTIPLY" then (none, .multiply)
  else if mode = "COS" then (none, .dot true)
  else if mode = "DOT" then (none, .dot false)
  else if mode = "MAX" then (none, .max)
  else if mode = "AVE" then (none, .average)
  else (some .valueError, .unset)

/-- The kind tag produced by each element-wise mode. -/
def elementwiseKind (mode : String) : LayerKind :=
  if mode = "CONCAT" then .concat
  else if mode = "SEQUENCE_CONCAT" then .concat
  else if mode = "ADD" then .add
  else if mode = "MULTIPLY" then .multiply
  else if mode = "COS" then .dot
  else if mode = "DOT" then .dot
  else if mode = "MAX" then .max
  else if mode = "AVE" then .average
  else .unset

/-- `add_elementwise`: appends the layer (with all input names verbatim)
before the mode is examined; no arity check is performed on `input_names`. -/
def NeuralNetworkBuilder.add_elementwise {α : Type} (spec : Model α) (name : String)
    (input_names : List String) (output_name : String) (mode : String) :
    Option PyError × Model α :=
  let r := elementwiseParamsOf (α := α) mode
  (r.1, spec.appendLayer ⟨name, input_names, [output_name], r.2⟩)

/-! ### add_convolution -/

/-- The convolution parameter fields written before the border-mode check
(`isDeconvolution` through `stride`); `nGroups`, `hasBias`, the padding
`oneof`, the weights and the bias are still at their protobuf defaults. -/
def convBase {α : Type} (kernelChannels outputChannels height width
    stride_height stride_width : Nat) (is_deconv : Bool)
    (output_shape : List Nat) : ConvolutionLayerParams α :=
  { isDeconvolution := is_deconv,
    outputShape := output_shape,
    outputChannels := outputChannels,
    kernelChannels := kernelChannels,
    kernelSize := [height, width],
    stride := [stride_height, stride_width] }

/-- `add_convolution` parameter payload.  After the border-mode dispatch the
weights are copied element by element from
`Wt = W.transpose((3,2,0,1)).flatten()` (convolution) or
`W.transpose((2,3,0,1)).flatten()` (deconvolution) for the first
`outputChannels * kernelChannels * height * width` flat indices; an index
beyond `Wt`'s length raises `IndexError` after all of `Wt` has been
appended.  The biases are `b[0], ..., b[outputChannels-1]` (the bias array is
modelled as a total index function). -/
def convMake {α : Type} (kernelChannels outputChannels height width
    stride_height stride_width : Nat) (borderMode : String) (groups : Nat)
    (W : Tensor4 α) (b : Nat → α) (has_bias is_deconv : Bool)
    (output_shape : List Nat) : Option PyError × ConvolutionLayerParams α :=
  let base : ConvolutionLayerParams α :=
    convBase kernelChannels outputChannels height width stride_height
      stride_width is_deconv output_shape
  let go : ConvolutionLayerParams α → Option PyError × ConvolutionLayerParams α :=
    fun p =>
      let p := { p with nGroups := groups, hasBias := has_bias }
      let Wt := (if is_deconv then W.transpose2301 else W.transpose3201).flatten
      let n := outputChannels * kernelChannels * height * width
      if n ≤ Wt.length then
        (none,
          { p with
            weights := Wt.take n,
            bias := if has_bias then (List.range outputChannels).map b else [] })
      else
        (some .indexError, { p with weights := Wt })
  if borderMode = "valid" then
    go { base with padding := .valid [(0, 0), (0, 0)] }
  else if borderMode = "same" then
    go { base with padding := .same .bottomRightHeavy }
  else
    (some .notImplementedError, base)

def NeuralNetworkBuilder.add_convolution {α : Type} (spec : Model α) (name : String)
    (kernelChannels outputChannels height width stride_height stride_width : Nat)
    (borderMode : String) (groups : Nat) (W : Tensor4 α) (b : Nat → α)
    (has_bias is_deconv : Bool) (output_shape : List Nat)
    (input_name output_name : String) : Option PyError × Model α :=
  let r := convMake kernelChannels outputChannels height width stride_height
    stride_width borderMode groups W b has_bias is_deconv output_shape
  (r.1, spec.appendLayer ⟨name, [input_name], [output_name], .convolution r.2⟩)

/-! ### add_vanilla_rnn -/

/-- `add_vanilla_rnn` parameter payload.  `W_x` and `W_h` are stored whole
(`flatten()` of the caller's matrices, passed here in flattened form); the
bias vector and its flag are written only when `b is not None and b.any()`.
An unknown activation raises `TypeError` before the weights are written. -/
def vanillaRNNMake {α : Type} [DecidableEq α] [Zero α] (W_h W_x : List α)
    (b : Option (List α)) (activation : String) (hidden_size input_size : Nat)
    (output_all reverse_input : Bool) :
    Option PyError × SimpleRecurrentLayerParams α :=
  let p0 : SimpleRecurrentLayerParams α :=
    { reverseInput := reverse_input,
      inputVectorSize := input_size,
      outputVectorSize := hidden_size,
      hasBiasVector := npAnyOpt b,
      sequenceOutput := output_all }
  match set_recurrent_activation activation with
  | none => (some .typeError, p0)
  | some act =>
    (none, { p0 with
      activation := act,
      weightMatrix := W_x,
      recursionMatrix := W_h,
      biasVector := if npAnyOpt b then optVals b else [] })

def NeuralNetworkBuilder.add_vanilla_rnn {α : Type} [DecidableEq α] [Zero α]
    (spec : Model α) (name : String) (W_h W_x : List α) (b : Option (List α))
    (activation : String) (hidden_size input_size : Nat)
    (input_names output_names : List String)
    (output_all reverse_input : Bool) : Option PyError × Model α :=
  let r := vanillaRNNMake W_h W_x b activation hidden_size input_size
    output_all reverse_input
  (r.1, spec.appendLayer ⟨name, input_names, output_names, .simpleRecurrent r.2⟩)

/-! ### add_gru -/

/-- `add_gru` parameter payload.  The gate matrices are the slices
`W[0, 0, g*hidden_size:(g+1)*hidden_size, :]` of the caller's combined
tensors, in the order update, reset, output; the per-gate bias slices are
written only when `b is not None and b.any()`.  Two activation messages are
appended before either is populated, so a `TypeError` on the inner (resp.
outer) activation leaves both (resp. the second) unpopulated. -/
def gruMake {α : Type} [DecidableEq α] [Zero α] (W_h W_x : Tensor4 α)
    (b : Option (List α)) (activation inner_activation : String)
    (hidden_size input_size : Nat) (output_all reverse_input : Bool) :
    Option PyError × GRULayerParams α :=
  let p0 : GRULayerParams α :=
    { inputVectorSize := input_size,
      outputVectorSize := hidden_size,
      hasBiasVectors := npAnyOpt b,
      sequenceOutput := output_all,
      reverseInput := reverse_input }
  match set_recurrent_activation inner_activation with
  | none => (some .typeError, { p0 with activations := [.unset, .unset] })
  | some af =>
    match set_recurrent_activation activation with
    | none => (some .typeError, { p0 with activations := [af, .unset] })
    | some ag =>
      let h := hidden_size
      (none, { p0 with
        activations := [af, ag],
        updateGateWeightMatrix := npSlice4 W_x (0 * h) (1 * h),
        resetGateWeightMatrix := npSlice4 W_x (1 * h) (2 * h),
        outputGateWeightMatrix := npSlice4 W_x (2 * h) (3 * h),
        updateGateRecursionMatrix := npSlice4 W_h (0 * h) (1 * h),
        resetGateRecursionMatrix := npSlice4 W_h (1 * h) (2 * h),
        outputGateRecursionMatrix := npSlice4 W_h (2 * h) (3 * h),
        updateGateBiasVector :=
          if npAnyOpt b then npSlice1 (optVals b) (0 * h) (1 * h) else [],
        resetGateBiasVector :=
          if npAnyOpt b then npSlice1 (optVals b) (1 * h) (2 * h) else [],
        outputGateBiasVector :=
          if npAnyOpt b then npSlice1 (optVals b) (2 * h) (3 * h) else [] })

def NeuralNetworkBuilder.add_gru {α : Type} [DecidableEq α] [Zero α]
    (spec : Model α) (name : String) (W_h W_x : Tensor4 α) (b : Option (List α))
    (activation inner_activation : String) (hidden_size input_size : Nat)
    (input_names output_names : List String)
    (output_all reverse_input : Bool) : Option PyError × Model α :=
  let r := gruMake W_h W_x b activation inner_activation hidden_size input_size
    output_all reverse_input
  (r.1, spec.appendLayer ⟨name, input_names, output_names, .gru r.2⟩)

/-! ### add_unilstm -/

/-- `add_unilstm` parameter payload.  All shared `LSTMParams` flags are
written before the activations, so an unknown activation leaves them set;
three activation messages are appended before any is populated.  The gate
order for both the input-weight slices of `W_x` and the recursion slices of
`W_h` is input, forget, output, block-input (= cell), each slice being
`W[0, 0, g*hidden_size:(g+1)*hidden_size, :]`.  Bias and peephole slices are
written only when the corresponding vector is present with a non-zero
element. -/
def uniLSTMMake {α : Type} [DecidableEq α] [Zero α] (hidden_size input_size : Nat)
    (W_h W_x : Tensor4 α)
    (inner_activation cell_state_update_activation output_activation : String)
    (b peep : Option (List α)) (output_all forget_bias coupled_input_forget_gate : Bool)
    (cell_clip_threshold : α) (reverse_input : Bool) :
    Option PyError × UniDirectionalLSTMLayerParams α :=
  let p0 : UniDirectionalLSTMLayerParams α :=
    { inputVectorSize := input_size,
      outputVectorSize := hidden_size,
      params :=
        { sequenceOutput := output_all,
          hasBiasVectors := npAnyOpt b,
          hasPeepholeVectors := npAnyOpt peep,
          coupledInputAndForgetGate := coupled_input_forget_gate,
          cellClipThreshold := cell_clip_threshold,
          forgetBias := forget_bias },
      reverseInput := reverse_input }
  match set_recurrent_activation inner_activation with
  | none => (some .typeError, { p0 with activations := [.unset, .unset, .unset] })
  | some af =>
    match set_recurrent_activation cell_state_update_activation with
    | none => (some .typeError, { p0 with activations := [af, .unset, .unset] })
    | some ag =>
      match set_recurrent_activation output_activation with
      | none => (some .typeError, { p0 with activations := [af, ag, .unset] })
      | some ah =>
        let h := hidden_size
        (none,
          { p0 with
            activations := [af, ag, ah],
            weightParams :=
              { inputGateWeightMatrix := npSlice4 W_x (0 * h) (1 * h),
                forgetGateWeightMatrix := npSlice4 W_x (1 * h) (2 * h),
                outputGateWeightMatrix := npSlice4 W_x (2 * h) (3 * h),
                blockInputWeightMatrix := npSlice4 W_x (3 * h) (4 * h),
                inputGateRecursionMatrix := npSlice4 W_h (0 * h) (1 * h),
                forgetGateRecursionMatrix := npSlice4 W_h (1 * h) (2 * h),
                outputGateRecursionMatrix := npSlice4 W_h (2 * h) (3 * h),
                blockInputRecursionMatrix := npSlice4 W_h (3 * h) (4 * h),
                inputGateBiasVector :=
                  if npAnyOpt b then npSlice1 (optVals b) (0 * h) (1 * h) else [],
                forgetGateBiasVector :=
                  if npAnyOpt b then npSlice1 (optVals b) (1 * h) (2 * h) else [],
                outputGateBiasVector :=
                  if npAnyOpt b then npSlice1 (optVals b) (2 * h) (3 * h) else [],
                blockInputBiasVector :=
                  if npAnyOpt b then npSlice1 (optVals b) (3 * h) (4 * h) else [],
                inputGatePeepholeVector :=
                  if npAnyOpt peep then npSlice1 (optVals peep) (0 * h) (1 * h) else [],
                forgetGatePeepholeVector :=
                  if npAnyOpt peep then npSlice1 (optVals peep) (1 * h) (2 * h) else [],
                outputGatePeepholeVector :=
                  if npAnyOpt peep then npSlice1 (optVals peep) (2 * h) (3 * h) else [] } })

def NeuralNetworkBuilder.add_unilstm {α : Type} [DecidableEq α] [Zero α]
    (spec : Model α) (name : String) (hidden_size input_size : Nat)
    (input_names output_names : List String) (W_h W_x : Tensor4 α)
    (inner_activation cell_state_update_activation output_activation : String)
    (b peep : Option (List α)) (output_all forget_bias coupled_input_forget_gate : Bool)
    (cell_clip_threshold : α) (reverse_input : Bool) : Option PyError × Model α :=
  let r := uniLSTMMake hidden_size input_size W_h W_x inner_activation
    cell_state_update_activation output_activation b peep output_all forget_bias
    coupled_input_forget_gate cell_clip_threshold reverse_input
  (r.1, spec.appendLayer ⟨name, input_names, output_names, .uniDirectionalLSTM r.2⟩)

/-! ### add_bidirlstm -/

/-- The LSTM gate-weight and recursion-matrix slices written for one
direction from the tensors `W_x` and `W_h` (bias and peephole fields left
empty). -/
def lstmGateMatrices {α : Type} (W_h W_x : Tensor4 α) (h : Nat) :
    LSTMWeightParams α :=
  { inputGateWeightMatrix := npSlice4 W_x (0 * h) (1 * h),
    forgetGateWeightMatrix := npSlice4 W_x (1 * h) (2 * h),
    outputGateWeightMatrix := npSlice4 W_x (2 * h) (3 * h),
    blockInputWeightMatrix := npSlice4 W_x (3 * h) (4 * h),
    inputGateRecursionMatrix := npSlice4 W_h (0 * h) (1 * h),
    forgetGateRecursionMatrix := npSlice4 W_h (1 * h) (2 * h),
    outputGateRecursionMatrix := npSlice4 W_h (2 * h) (3 * h),
    blockInputRecursionMatrix := npSlice4 W_h (3 * h) (4 * h) }

/-- The four bias-vector slices of `v` written into `wp`. -/
def lstmWithBiases {α : Type} (wp : LSTMWeightParams α) (v : List α) (h : Nat) :
    LSTMWeightParams α :=
  { wp with
    inputGateBiasVector := npSlice1 v (0 * h) (1 * h),
    forgetGateBiasVector := npSlice1 v (1 * h) (2 * h),
    outputGateBiasVector := npSlice1 v (2 * h) (3 * h),
    blockInputBiasVector := npSlice1 v (3 * h) (4 * h) }

/-- The three peephole-vector slices of `v` written into `wp`. -/
def lstmWithPeepholes {α : Type} (wp : LSTMWeightParams α) (v : List α) (h : Nat) :
    LSTMWeightParams α :=
  { wp with
    inputGatePeepholeVector := npSlice1 v (0 * h) (1 * h),
    forgetGatePeepholeVector := npSlice1 v (1 * h) (2 * h),
    outputGatePeepholeVector := npSlice1 v (2 * h) (3 * h) }

/-- `add_bidirlstm` parameter payload.  Note the source's guards on the
backward weights: the backward *bias* block slices `b_back` under the guard
`if b is not None and b.any():` — the forward bias, not `b_back`, decides
whether the backward bias is written.  (When that guard is taken but `b_back`
is `None`, subscripting `None` raises `TypeError` before any backward bias
value is appended; the backward peephole block is then never reached.)  The
backward peephole block is guarded by `peep_back` itself. -/
def biLSTMMake {α : Type} [DecidableEq α] [Zero α] (hidden_size input_size : Nat)
    (W_h W_x W_h_back W_x_back : Tensor4 α)
    (inner_activation cell_state_update_activation output_activation : String)
    (b b_back peep peep_back : Option (List α))
    (output_all forget_bias coupled_input_forget_gate : Bool)
    (cell_clip_threshold : α) :
    Option PyError × BiDirectionalLSTMLayerParams α :=
  let p0 : BiDirectionalLSTMLayerParams α :=
    { inputVectorSize := input_size,
      outputVectorSize := hidden_size,
      params :=
        { hasBiasVectors := npAnyOpt b,
          sequenceOutput := output_all,
          forgetBias := forget_bias,
          hasPeepholeVectors := npAnyOpt peep,
          coupledInputAndForgetGate := coupled_input_forget_gate,
          cellClipThreshold := cell_clip_threshold } }
  match set_recurrent_activation inner_activation with
  | none =>
    (some .typeError,
      { p0 with activationsForwardLSTM := [.unset, .unset, .unset] })
  | some af =>
    match set_recurrent_activation cell_state_update_activation with
    | none =>
      (some .typeError,
        { p0 with activationsForwardLSTM := [af, .unset, .unset] })
    | some ag =>
      match set_recurrent_activation output_activation with
      | none =>
        (some .typeError,
          { p0 with activationsForwardLSTM := [af, ag, .unset] })
      | some ah =>
        let h := hidden_size
        let p1 :=
          { p0 with
            activationsForwardLSTM := [af, ag, ah],
            activationsBackwardLSTM := [af, ag, ah] }
        let wpF0 := lstmGateMatrices W_h W_x h
        let wpF1 := if npAnyOpt b then lstmWithBiases wpF0 (optVals b) h else wpF0
        let wpF := if npAnyOpt peep then lstmWithPeepholes wpF1 (optVals peep) h else wpF1
        let wpB0 := lstmGateMatrices W_h_back W_x_back h
        let finish : LSTMWeightParams α → Option PyError × BiDirectionalLSTMLayerParams α :=
          fun wpB =>
            let wpB :=
              if npAnyOpt peep_back then lstmWithPeepholes wpB (optVals peep_back) h
              else wpB
            (none, { p1 with weightParams := [wpF, wpB] })
        if npAnyOpt b then
          match b_back with
          | none => (some .typeError, { p1 with weightParams := [wpF, wpB0] })
          | some bb => finish (lstmWithBiases wpB0 bb h)
        else
          finish wpB0

def NeuralNetworkBuilder.add_bidirlstm {α : Type} [DecidableEq α] [Zero α]
    (spec : Model α) (name : String) (hidden_size input_size : Nat)
    (input_names output_names : List String)
    (W_h W_x W_h_back W_x_back : Tensor4 α)
    (inner_activation cell_state_update_activation output_activation : String)
    (b b_back peep peep_back : Option (List α))
    (output_all forget_bias coupled_input_forget_gate : Bool)
    (cell_clip_threshold : α) : Option PyError × Model α :=
  let r := biLSTMMake hidden_size input_size W_h W_x W_h_back W_x_back
    inner_activation cell_state_update_activation output_activation
    b b_back peep peep_back output_all forget_bias coupled_input_forget_gate
    cell_clip_threshold
  (r.1, spec.appendLayer ⟨name, input_names, output_names, .biDirectionalLSTM r.2⟩)

/-! ### add_dropout -/

/-- `add_dropout` is `pass`: it neither raises nor mutates the document. -/
def NeuralNetworkBuilder.add_dropout {α : Type} (spec : Model α)
    (name input_name output_name : String) : Option PyError × Model α :=
  (none, spec)

/-! ## Sequences of layer-factory calls -/

/-- One layer-factory call with its arguments (over the modelled operations;
the argument order follows the source signatures). -/
inductive FactoryCall (α : Type) where
  | innerProduct (name : String) (W Wb : List α) (nB nC : Nat) (has_bias : Bool)
      (input_name output_name : String)
  | elementwise (name : String) (input_names : List String)
      (output_name mode : String)
  | convolution (name : String)
      (kernelChannels outputChannels height width stride_height stride_width : Nat)
      (borderMode : String) (groups : Nat) (W : Tensor4 α) (b : Nat → α)
      (has_bias is_deconv : Bool) (output_shape : List Nat)
      (input_name output_name : String)
  | vanillaRNN (name : String) (W_h W_x : List α) (b : Option (List α))
      (activation : String) (hidden_size input_size : Nat)
      (input_names output_names : List String) (output_all reverse_input : Bool)
  | gru (name : String) (W_h W_x : Tensor4 α) (b : Option (List α))
      (activation inner_activation : String) (hidden_size input_size : Nat)
      (input_names output_names : List String) (output_all reverse_input : Bool)
  | unilstm (name : String) (hidden_size input_size : Nat)
      (input_names output_names : List String) (W_h W_x : Tensor4 α)
      (inner_activation cell_state_update_activation output_activation : String)
      (b peep : Option (List α))
      (output_all forget_bias coupled_input_forget_gate : Bool)
      (cell_clip_threshold : α) (reverse_input : Bool)
  | bidirlstm (name : String) (hidden_size input_size : Nat)
      (input_names output_names : List String)
      (W_h W_x W_h_back W_x_back : Tensor4 α)
      (inner_activation cell_state_update_activation output_activation : String)
      (b b_back peep peep_back : Option (List α))
      (output_all forget_bias coupled_input_forget_gate : Bool)
      (cell_clip_threshold : α)
  | dropout (name input_name output_name : String)

def FactoryCall.isDropout {α : Type} : FactoryCall α → Bool
  | .dropout .. => true
  | _ => false

/-- The layer kind each call is meant to produce. -/
def FactoryCall.kind {α : Type} : FactoryCall α → LayerKind
  | .innerProduct .. => .innerProduct
  | .elementwise _ _ _ mode => elementwiseKind mode
  | .convolution .. => .convolution
  | .vanillaRNN .. => .simpleRecurrent
  | .gru .. => .gru
  | .unilstm .. => .uniDirectionalLSTM
  | .bidirlstm .. => .biDirectionalLSTM
  | .dropout .. => .unset

/-- Dispatch one factory call against the document. -/
def applyCall {α : Type} [DecidableEq α] [Zero α] (spec : Model α) :
    FactoryCall α → Option PyError × Model α
  | .innerProduct name W Wb nB nC has_bias input_name output_name =>
    NeuralNetworkBuilder.add_inner_product spec name W Wb nB nC has_bias
      input_name output_name
  | .elementwise name input_names output_name mode =>
    NeuralNetworkBuilder.add_elementwise spec name input_names output_name mode
  | .convolution name kernelChannels outputChannels height width stride_height
      stride_width borderMode groups W b has_bias is_deconv output_shape
      input_name output_name =>
    NeuralNetworkBuilder.add_convolution spec name kernelChannels outputChannels
      height width stride_height stride_width borderMode groups W b has_bias
      is_deconv output_shape input_name output_name
  | .vanillaRNN name W_h W_x b activation hidden_size input_size input_names
      output_names output_all reverse_input =>
    NeuralNetworkBuilder.add_vanilla_rnn spec name W_h W_x b activation
      hidden_size input_size input_names output_names output_all reverse_input
  | .gru name W_h W_x b activation inner_activation hidden_size input_size
      input_names output_names output_all reverse_input =>
    NeuralNetworkBuilder.add_gru spec name W_h W_x b activation inner_activation
      hidden_size input_size input_names output_names output_all reverse_input
  | .unilstm name hidden_size input_size input_names output_names W_h W_x
      inner_activation cell_state_update_activation output_activation b peep
      output_all forget_bias coupled_input_forget_gate cell_clip_threshold
      reverse_input =>
    NeuralNetworkBuilder.add_unilstm spec name hidden_size input_size
      input_names output_names W_h W_x inner_activation
      cell_state_update_activation output_activation b peep output_all
      forget_bias coupled_input_forget_gate cell_clip_threshold reverse_input
  | .bidirlstm name hidden_size input_size input_names output_names W_h W_x
      W_h_back W_x_back inner_activation cell_state_update_activation
      output_activation b b_back peep peep_back output_all forget_bias
      coupled_input_forget_gate cell_clip_threshold =>
    NeuralNetworkBuilder.add_bidirlstm spec name hidden_size input_size
      input_names output_names W_h W_x W_h_back W_x_back inner_activation
      cell_state_update_activation output_activation b b_back peep peep_back
      output_all forget_bias coupled_input_forget_gate cell_clip_threshold
  | .dropout name input_name output_name =>
    NeuralNetworkBuilder.add_dropout spec name input_name output_name

/-- Run a sequence of factory calls, stopping at the first raised
exception. -/
def runCalls {α : Type} [DecidableEq α] [Zero α] (spec : Model α) :
    List (FactoryCall α) → Option PyError × Model α
  | [] => (none, spec)
  | c :: rest =>
    match applyCall spec c with
    | (none, spec1) => runCalls spec1 rest
    | (some e, spec1) => (some e, spec1)

/-! ## Definitions written from the spec's words

These restate, independently of the code above, the relayout and
normalization rules as the specification phrases them; the claim theorems
compare them with what the builder computes. -/

/-- Written from the spec: the weight tensor of logical shape
`(H, W, Cin, Cout)` "after transposing its axes to `(Cout, Cin, H, W)`":
the result has shape `(Cout, Cin, H, W)` and its element at
`(cout, cin, i, j)` is `W[i, j, cin, cout]`. -/
def specConvRelayout {α : Type} (W : Tensor4 α) : Tensor4 α :=
  ⟨W.d3, W.d2, W.d0, W.d1, fun cout cin i j => W.entry i j cin cout⟩

/-- Written from the spec: the weight tensor of logical shape
`(H, W, Cin, Cout)` "after transposing to `(Cin, Cout, H, W)`" (the
deconvolution case): the element at `(cin, cout, i, j)` is
`W[i, j, cin, cout]`. -/
def specDeconvRelayout {α : Type} (W : Tensor4 α) : Tensor4 α :=
  ⟨W.d2, W.d3, W.d0, W.d1, fun cin cout i j => W.entry i j cin cout⟩

/-- Written from the spec: "rows `[g*h:(g+1)*h]` of the source tensor" for
gate index `g` — the `h` rows starting at row `g*h` along the
second-to-last axis of the gate-stacked tensor, flattened. -/
def specGateRows {α : Type} (W : Tensor4 α) (h g : Nat) : List α :=
  (List.range h).flatMap fun r =>
    (List.range W.d3).map fun c => W.entry 0 0 (g * h + r) c

/-- Written from the spec: rank-2 shapes are collapsed to rank-1 by keeping
only the trailing dimension; rank-1 and rank-3 pass through; any other rank
fails. -/
def specNormalizeShape (dim : List Nat) : Option (List Nat) :=
  if dim.length = 2 then some (dim.drop 1)
  else if dim.length = 1 ∨ dim.length = 3 then some dim
  else none

/-- Written from the spec: the slot list after `set_input` rewrote the first
`dims.length` slots to double multi-arrays with the normalized shapes. -/
def specApplyInputShapes : List FeatureSlot → List (List Nat) → List FeatureSlot
  | slots, [] => slots
  | [], _ :: _ => []
  | s :: ss, d :: ds =>
    { s with type := .multiArray ((specNormalizeShape d).getD []) .double } ::
      specApplyInputShapes ss ds

/-- The slot list after `set_output` rewrote the first `dims.length` slots to
double multi-arrays with the given shapes, verbatim. -/
def specApplyOutputShapes : List FeatureSlot → List (List Nat) → List FeatureSlot
  | slots, [] => slots
  | [], _ :: _ => []
  | s :: ss, d :: ds =>
    { s with type := .multiArray d .double } :: specApplyOutputShapes ss ds

/-! ## Projections used by the claim statements -/

/-- The GRU input-weight matrices in the documented fixed gate order
update, reset, output. -/
def GRULayerParams.weightBlocks {α : Type} (p : GRULayerParams α) : List (List α) :=
  [p.updateGateWeightMatrix, p.resetGateWeightMatrix, p.outputGateWeightMatrix]

/-- The GRU recursion matrices in the documented fixed gate order
update, reset, output. -/
def GRULayerParams.recursionBlocks {α : Type} (p : GRULayerParams α) : List (List α) :=
  [p.updateGateRecursionMatrix, p.resetGateRecursionMatrix, p.outputGateRecursionMatrix]

/-- The LSTM input-weight matrices in the documented fixed gate order
input, forget, output, cell/block-input. -/
def LSTMWeightParams.weightBlocks {α : Type} (p : LSTMWeightParams α) : List (List α) :=
  [p.inputGateWeightMatrix, p.forgetGateWeightMatrix, p.outputGateWeightMatrix,
   p.blockInputWeightMatrix]

/-- The LSTM recursion matrices in the documented fixed gate order
input, forget, output, cell/block-input. -/
def LSTMWeightParams.recursionBlocks {α : Type} (p : LSTMWeightParams α) : List (List α) :=
  [p.inputGateRecursionMatrix, p.forgetGateRecursionMatrix,
   p.outputGateRecursionMatrix, p.blockInputRecursionMatrix]

/-- The concatenation of the four LSTM gate-bias vectors. -/
def LSTMWeightParams.allBiases {α : Type} (p : LSTMWeightParams α) : List α :=
  p.inputGateBiasVector ++ p.forgetGateBiasVector ++ p.outputGateBiasVector ++
    p.blockInputBiasVector

/-- The weights of the last layer, provided it is a convolution layer. -/
def Model.lastConvWeights {α : Type} (spec : Model α) : Option (List α) :=
  match spec.layers.getLast? with
  | some l =>
    match l.params with
    | .convolution p => some p.weights
    | _ => none
  | none => none

/-- The bidirectional-LSTM parameters of the last layer, if any. -/
def Model.lastBidirLSTM {α : Type} (spec : Model α) :
    Option (BiDirectionalLSTMLayerParams α) :=
  match spec.layers.getLast? with
  | some l =>
    match l.params with
    | .biDirectionalLSTM p => some p
    | _ => none
  | none => none

/-! ## Helper lemmas -/

theorem getLast?_append_singleton {β : Type} (l : List β) (x : β) :
    (l ++ [x]).getLast? = some x := by
  induction l with
  | nil => rfl
  | cons a t ih =>
    rw [List.cons_append, List.getLast?_cons]
    simp [ih]

theorem length_flatMap_const {γ : Type} (n c : Nat) (f : Nat → List γ)
    (hf : ∀ i, (f i).length = c) :
    ((List.range n).flatMap f).length = n * c := by
  induction n with
  | zero => simp
  | succ m ih =>
    rw [List.range_succ, List.flatMap_append, List.length_append, ih]
    simp [hf, Nat.succ_mul]

theorem Tensor4.length_flatten {α : Type} (t : Tensor4 α) :
    t.flatten.length = t.d0 * (t.d1 * (t.d2 * t.d3)) := by
  unfold Tensor4.flatten
  refine length_flatMap_const _ _ _ fun i => ?_
  refine length_flatMap_const _ _ _ fun j => ?_
  refine length_flatMap_const _ _ _ fun k => ?_
  simp

/-- The slice `W[0, 0, g*h:(g+1)*h, :]` of a tensor whose third axis has
length `n*h`, for a gate index `g < n`, is exactly the `h` rows starting at
`g*h`. -/
theorem npSlice4_eq_specGateRows {α : Type} (W : Tensor4 α) (h g n : Nat)
    (hd : W.d2 = n * h) (hg : g + 1 ≤ n) :
    npSlice4 W (g * h) ((g + 1) * h) = specGateRows W h g := by
  unfold npSlice4 specGateRows
  have h1 : (g + 1) * h = g * h + h := Nat.succ_mul g h
  have h2 : min ((g + 1) * h) W.d2 = (g + 1) * h := by
    rw [hd]
    exact Nat.min_eq_left (Nat.mul_le_mul_right h hg)
  have h3 : min ((g + 1) * h) W.d2 - g * h = h := by omega
  rw [h3]

/-- The source's per-`dim` shape computation agrees with the spec's
normalization rule. -/
theorem setInputShape_eq_specNormalizeShape (dim : List Nat) :
    setInputShape dim = specNormalizeShape dim := by
  rcases dim with _ | ⟨a, _ | ⟨b, _ | ⟨c, _ | ⟨d, rest⟩⟩⟩⟩ <;>
    simp [setInputShape, specNormalizeShape]

theorem setInputLoop_ok (dims : List (List Nat)) :
    ∀ (acc slots : List FeatureSlot),
      (∀ d ∈ dims, (specNormalizeShape d).isSome) →
      dims.length ≤ slots.length →
      setInputLoop acc slots dims = (none, acc ++ specApplyInputShapes slots dims) := by
  induction dims with
  | nil => intro acc slots _ _; simp [setInputLoop, specApplyInputShapes]
  | cons d rest ih =>
    intro acc slots hall hlen
    have hd : (specNormalizeShape d).isSome := hall d (by simp)
    obtain ⟨shape, hshape⟩ := Option.isSome_iff_exists.mp hd
    match slots with
    | [] => simp at hlen
    | s :: ss =>
      have hcode : setInputShape d = some shape := by
        rw [setInputShape_eq_specNormalizeShape, hshape]
      have hlen2 : rest.length ≤ ss.length := Nat.le_of_succ_le_succ hlen
      rw [setInputLoop, hcode]
      refine ((ih _ ss (fun x hx => hall x (by simp [hx])) hlen2).trans ?_)
      simp [specApplyInputShapes, hshape]

theorem setInputLoop_err (dims : List (List Nat)) :
    ∀ (acc slots : List FeatureSlot),
      (dims.all fun d => (specNormalizeShape d).isSome) = false →
      dims.length ≤ slots.length →
      (setInputLoop acc slots dims).1 = some PyError.runtimeError := by
  induction dims with
  | nil => intro acc slots hall _; simp at hall
  | cons d rest ih =>
    intro acc slots hall hlen
    by_cases hd : (specNormalizeShape d).isSome
    · obtain ⟨shape, hshape⟩ := Option.isSome_iff_exists.mp hd
      have hcode : setInputShape d = some shape := by
        rw [setInputShape_eq_specNormalizeShape, hshape]
      match slots with
      | [] => simp at hlen
      | s :: ss =>
        rw [setInputLoop, hcode]
        refine ih _ ss ?_ (Nat.le_of_succ_le_succ hlen)
        simp only [List.all_cons, hd, Bool.true_and] at hall
        exact hall
    · have hcode : setInputShape d = none := by
        rw [setInputShape_eq_specNormalizeShape]
        exact Option.not_isSome_iff_eq_none.mp hd
      cases slots <;> rw [setInputLoop, hcode]

theorem setOutputLoop_ok (dims : List (List Nat)) :
    ∀ (acc slots : List FeatureSlot),
      dims.length ≤ slots.length →
      setOutputLoop acc slots dims = (none, acc ++ specApplyOutputShapes slots dims) := by
  induction dims with
  | nil => intro acc slots _; simp [setOutputLoop, specApplyOutputShapes]
  | cons d rest ih =>
    intro acc slots hlen
    match slots with
    | [] => simp at hlen
    | s :: ss =>
      have hlen2 : rest.length ≤ ss.length := Nat.le_of_succ_le_succ hlen
      rw [setOutputLoop]
      refine ((ih _ ss hlen2).trans ?_)
      simp [specApplyOutputShapes]

theorem appendInt64Labels_err (ls : List PyLabel) :
    ∀ acc, (ls.all PyLabel.isInt) = false →
      (appendInt64Labels acc ls).1 = some PyError.typeError := by
  induction ls with
  | nil => intro acc h; simp at h
  | cons l rest ih =>
    intro acc h
    match l with
    | .pyInt n =>
      simp only [List.all_cons, PyLabel.isInt, Bool.true_and] at h
      exact ih (acc ++ [n]) h
    | .pyStr s => rfl
    | .pyOther => rfl

theorem appendStringLabels_err (ls : List PyLabel) :
    ∀ acc, (ls.all PyLabel.isStr) = false →
      (appendStringLabels acc ls).1 = some PyError.typeError := by
  induction ls with
  | nil => intro acc h; simp at h
  | cons l rest ih =>
    intro acc h
    match l with
    | .pyStr s =>
      simp only [List.all_cons, PyLabel.isStr, Bool.true_and] at h
      exact ih (acc ++ [s]) h
    | .pyInt n => rfl
    | .pyOther => rfl

theorem mergeDictType_isDictionary (t : FeatureType) :
    (mergeDictType t).isDictionary = true := by
  cases t <;> rfl

/-- `convMake` on a supported border mode with a weight count matching the
flattened transposed tensor: no exception, and the stored weights are the
whole flattened transposed tensor. -/
theorem convMake_ok {α : Type} (kernelChannels outputChannels height width
    stride_height stride_width : Nat) (borderMode : String) (groups : Nat)
    (W : Tensor4 α) (b : Nat → α) (has_bias is_deconv : Bool)
    (output_shape : List Nat)
    (hn : outputChannels * kernelChannels * height * width =
      ((if is_deconv then W.transpose2301 else W.transpose3201).flatten).length)
    (hmode : borderMode = "valid" ∨ borderMode = "same") :
    (convMake kernelChannels outputChannels height width stride_height
      stride_width borderMode groups W b has_bias is_deconv output_shape).1 = none ∧
    (convMake kernelChannels outputChannels height width stride_height
      stride_width borderMode groups W b has_bias is_deconv output_shape).2.weights =
      (if is_deconv then W.transpose2301 else W.transpose3201).flatten := by
  unfold convMake
  rcases hmode with h | h <;> subst h <;>
    simp only [if_pos, if_neg, String.reduceEq, reduceIte] <;>
    rw [hn] <;>
    simp [List.take_length]

/-- C1: for every weight tensor `W` of logical shape `(H, W, Cin, Cout)` with
all dimensions ≥ 1 (and the kernel arguments matching that shape),
`add_convolution` with `is_deconv = False` stores as the layer's weights
exactly the flattened sequence of `W` transposed to `(Cout, Cin, H, W)`, and
with `is_deconv = True` exactly the flattened sequence of `W` transposed to
`(Cin, Cout, H, W)`. -/
theorem add_convolution_weight_relayout {α : Type} (spec : Model α) (name : String)
    (kernelChannels outputChannels height width stride_height stride_width : Nat)
    (borderMode : String) (groups : Nat) (W : Tensor4 α) (b : Nat → α)
    (has_bias is_deconv : Bool) (output_shape : List Nat)
    (input_name output_name : String)
    (hH : 1 ≤ W.d0) (hWd : 1 ≤ W.d1) (hCin : 1 ≤ W.d2) (hCout : 1 ≤ W.d3)
    (hheight : height = W.d0) (hwidth : width = W.d1)
    (hkc : kernelChannels = W.d2) (hoc : outputChannels = W.d3)
    (hmode : borderMode = "valid" ∨ borderMode = "same") :
    (NeuralNetworkBuilder.add_convolution spec name kernelChannels outputChannels
      height width stride_height stride_width borderMode groups W b has_bias
      is_deconv output_shape input_name output_name).1 = none ∧
    (NeuralNetworkBuilder.add_convolution spec name kernelChannels outputChannels
      height width stride_height stride_width borderMode groups W b has_bias
      is_deconv output_shape input_name output_name).2.lastConvWeights =
      some ((if is_deconv then specDeconvRelayout W else specConvRelayout W).flatten) := by
  subst hheight hwidth hkc hoc
  have hn : W.d3 * W.d2 * W.d0 * W.d1 =
      ((if is_deconv then W.transpose2301 else W.transpose3201).flatten).length := by
    cases is_deconv <;>
      simp only [if_pos, if_neg, Bool.false_eq_true, reduceIte, Tensor4.length_flatten,
        Tensor4.transpose2301, Tensor4.transpose3201] <;> ring
  obtain ⟨h1, h2⟩ := convMake_ok W.d2 W.d3 W.d0 W.d1 stride_height stride_width
    borderMode groups W b has_bias is_deconv output_shape hn hmode
  constructor
  · exact h1
  · show (Model.appendLayer spec _).lastConvWeights = _
    unfold Model.lastConvWeights Model.appendLayer
    rw [getLast?_append_singleton]
    have : (if is_deconv then specDeconvRelayout W else specConvRelayout W) =
        (if is_deconv then W.transpose2301 else W.transpose3201) := by
      cases is_deconv <;> rfl
    rw [this, ← h2]

/-- The empty in-progress document used by the concrete evaluations below. -/
def emptyModel : Model Int :=
  { specificationVersion := 1, description := { input := [], output := [] } }

/-- A concrete 1×2×1×2 weight tensor (shape `(H, W, Cin, Cout) = (1,2,1,2)`)
with pairwise distinct entries. -/
def tConv : Tensor4 Int :=
  ⟨1, 2, 1, 2, fun i j k l => 1 + (i : Int) + 10 * j + 100 * k + 1000 * l⟩

theorem add_convolution_weight_relayout_witness :
    (NeuralNetworkBuilder.add_convolution emptyModel "conv" 1 2 1 2 1 1 "valid"
      1 tConv (fun _ => 0) false false [] "data" "out").1 = none ∧
    (NeuralNetworkBuilder.add_convolution emptyModel "conv" 1 2 1 2 1 1 "valid"
      1 tConv (fun _ => 0) false false [] "data" "out").2.lastConvWeights =
      some ((if false then specDeconvRelayout tConv else specConvRelayout tConv).flatten) :=
  add_convolution_weight_relayout emptyModel "conv" 1 2 1 2 1 1 "valid" 1 tConv
    (fun _ => 0) false false [] "data" "out" (by decide) (by decide) (by decide)
    (by decide) rfl rfl rfl rfl (Or.inl rfl)

/-- A concrete 1×1×1×1 weight tensor. -/
def tOne : Tensor4 Int := ⟨1, 1, 1, 1, fun _ _ _ _ => 5⟩

/-- C3 counterexample: calling `add_convolution` with the unsupported border
mode `"full"` on an empty document raises `NotImplementedError`, yet the
layer list afterwards has length 1 — a partial layer record was appended, so
the layer list is not "exactly what it was before the call". -/
theorem add_convolution_bad_mode_appends :
    (NeuralNetworkBuilder.add_convolution emptyModel "conv" 1 1 1 1 1 1 "full"
      1 tOne (fun _ => 0) false false [] "data" "out").1 =
        some PyError.notImplementedError ∧
    (NeuralNetworkBuilder.add_convolution emptyModel "conv" 1 1 1 1 1 1 "full"
      1 tOne (fun _ => 0) false false [] "data" "out").2.layers.length = 1 := by
  decide

/-- C3 (amended): `add_convolution` with a border mode other than `valid` or
`same` fails with `NotImplementedError`, but the layer list grows by exactly
one: a partial convolution layer (name, inputs, outputs, and the parameters
written before the border-mode check — `isDeconvolution` through `stride` —
with no padding variant, no weights and no bias) has already been appended. -/
theorem add_convolution_bad_mode {α : Type} (spec : Model α) (name : String)
    (kernelChannels outputChannels height width stride_height stride_width : Nat)
    (borderMode : String) (groups : Nat) (W : Tensor4 α) (b : Nat → α)
    (has_bias is_deconv : Bool) (output_shape : List Nat)
    (input_name output_name : String)
    (h1 : borderMode ≠ "valid") (h2 : borderMode ≠ "same") :
    NeuralNetworkBuilder.add_convolution spec name kernelChannels outputChannels
      height width stride_height stride_width borderMode groups W b has_bias
      is_deconv output_shape input_name output_name =
    (some PyError.notImplementedError,
     spec.appendLayer ⟨name, [input_name], [output_name],
       .convolution (convBase kernelChannels outputChannels height width
         stride_height stride_width is_deconv output_shape)⟩) := by
  unfold NeuralNetworkBuilder.add_convolution convMake
  rw [if_neg h1, if_neg h2]

theorem add_convolution_bad_mode_witness :
    NeuralNetworkBuilder.add_convolution emptyModel "conv" 1 1 1 1 1 1 "full"
      1 tOne (fun _ => 0) false false [] "data" "out" =
    (some PyError.notImplementedError,
     emptyModel.appendLayer ⟨"conv", ["data"], ["out"],
       .convolution (convBase 1 1 1 1 1 1 false [])⟩) :=
  add_convolution_bad_mode emptyModel "conv" 1 1 1 1 1 1 "full" 1 tOne
    (fun _ => 0) false false [] "data" "out" (by decide) (by decide)

/-- C10: `add_dropout` is a complete no-op — for every document and every
argument combination it returns without error, appends no layer record, and
leaves the document unchanged. -/
theorem add_dropout_noop {α : Type} (spec : Model α)
    (name input_name output_name : String) :
    NeuralNetworkBuilder.add_dropout spec name input_name output_name = (none, spec) :=
  rfl

/-- A document with a single declared output of multi-array type. -/
def mOne : Model Int :=
  { specificationVersion := 1,
    description := { input := [], output := [⟨"probs", .multiArray [2] .double⟩] } }

/-- C4 counterexample: on a document with one declared (multi-array) output,
`set_class_labels` with an empty label list returns without error but the
document is *not* unchanged — the type of the first output feature has been
converted to a dictionary type. -/
theorem set_class_labels_empty_mutates :
    (NeuralNetworkBuilder.set_class_labels mOne [] "classLabel").1 = none ∧
    (NeuralNetworkBuilder.set_class_labels mOne [] "classLabel").2 ≠ mOne := by
  decide

/-- C4 (amended): on a document with at least one declared output,
`set_class_labels` with an empty label list returns without error; the only
mutation is that the first output's type is switched to a dictionary type
(an existing dictionary type, including its key type, is preserved; any
other type becomes a dictionary type with no key type).  The layer list, the
remaining outputs, the inputs and the classifier feature names are
unchanged. -/
theorem set_class_labels_empty {α : Type} (spec : Model α) (pfn : String)
    (o : FeatureSlot) (rest : List FeatureSlot)
    (hout : spec.description.output = o :: rest) :
    NeuralNetworkBuilder.set_class_labels spec [] pfn =
      (none, { spec with
        description := { spec.description with
          output := { o with type := mergeDictType o.type } :: rest } }) := by
  unfold NeuralNetworkBuilder.set_class_labels
  rw [hout]

theorem set_class_labels_empty_witness :
    NeuralNetworkBuilder.set_class_labels mOne [] "classLabel" =
      (none, { mOne with
        description := { mOne.description with
          output := [{ name := "probs",
                       type := mergeDictType (.multiArray [2] .double) }] } }) :=
  set_class_labels_empty mOne "classLabel" ⟨"probs", .multiArray [2] .double⟩ [] rfl

/-- C5 counterexample: `set_class_labels` with a label list whose elements
are not homogeneously int or str raises `TypeError` but does *not* leave the
document unmutated — the first output's type has already been converted. -/
theorem set_class_labels_mixed_mutates :
    (NeuralNetworkBuilder.set_class_labels mOne [PyLabel.pyOther] "classLabel").1 =
      some PyError.typeError ∧
    (NeuralNetworkBuilder.set_class_labels mOne [PyLabel.pyOther] "classLabel").2 ≠
      mOne := by
  decide

/-- C5 (amended): on a document with at least one declared output,
`set_class_labels` with a non-empty label list that is not homogeneously
integers or homogeneously strings fails with `TypeError`, but it does not
leave the document unmutated: the first output's type has already been
converted to a dictionary type. -/
theorem set_class_labels_mixed {α : Type} (spec : Model α)
    (labels : List PyLabel) (pfn : String)
    (hout : spec.description.output ≠ [])
    (hne : labels ≠ [])
    (hhom : (labels.all PyLabel.isInt || labels.all PyLabel.isStr) = false) :
    (NeuralNetworkBuilder.set_class_labels spec labels pfn).1 =
      some PyError.typeError ∧
    ((NeuralNetworkBuilder.set_class_labels spec labels pfn).2.description.output.head?).map
      (fun s => s.type.isDictionary) = some true := by
  rcases Bool.or_eq_false_iff.mp hhom with ⟨hint, hstr⟩
  cases hO : spec.description.output with
  | nil => exact absurd hO hout
  | cons o rest =>
    unfold NeuralNetworkBuilder.set_class_labels
    rw [hO]
    cases labels with
    | nil => exact absurd rfl hne
    | cons l0 rest2 =>
      cases l0 with
      | pyOther =>
        exact ⟨rfl, by simp [mergeDictType_isDictionary]⟩
      | pyInt n =>
        refine ⟨appendInt64Labels_err (PyLabel.pyInt n :: rest2) [] hint, ?_⟩
        simp [FeatureType.isDictionary]
      | pyStr s =>
        refine ⟨appendStringLabels_err (PyLabel.pyStr s :: rest2) [] hstr, ?_⟩
        simp [FeatureType.isDictionary]

theorem set_class_labels_mixed_witness :
    (NeuralNetworkBuilder.set_class_labels mOne
      [PyLabel.pyInt 1, PyLabel.pyStr "a"] "classLabel").1 =
      some PyError.typeError ∧
    ((NeuralNetworkBuilder.set_class_labels mOne
      [PyLabel.pyInt 1, PyLabel.pyStr "a"] "classLabel").2.description.output.head?).map
      (fun s => s.type.isDictionary) = some true :=
  set_class_labels_mixed mOne [PyLabel.pyInt 1, PyLabel.pyStr "a"] "classLabel"
    (by decide) (by decide) (by decide)

/-- A document with one declared output slot (for the `set_output`
evaluation). -/
def mOut : Model Int :=
  { specificationVersion := 1,
    description := { input := [], output := [⟨"out", .multiArray [1] .double⟩] } }

/-- C6 counterexample: `set_output` writes a rank-2 shape through verbatim —
the stored shape is `[2, 3]`, not the normalized `[3]` the claim requires —
and a rank-5 shape does not cause the call to fail either. -/
theorem set_output_rank2_not_normalized :
    NeuralNetworkBuilder.set_output mOut ["out"] [[2, 3]] =
      (none, { mOut with
        description := { mOut.description with
          output := [⟨"out", .multiArray [2, 3] .double⟩] } }) ∧
    (NeuralNetworkBuilder.set_output mOut ["out"] [[1, 2, 3, 4, 5]]).1 = none := by
  decide

/-- C6 (amended): `set_input` normalizes each rank-2 shape to rank-1 by
keeping only the trailing dimension, writes rank-1 and rank-3 shapes through
unchanged, and fails with `RuntimeError` when some shape has rank outside
`{1, 2, 3}`; `set_output` performs no normalization and no rank validation —
every shape is written through verbatim.  (Both statements assume the shape
list does not exceed the corresponding slot list, as indexing past the
repeated field would raise `IndexError` first.) -/
theorem set_interface_shapes {α : Type} (spec : Model α) (names : List String)
    (dims : List (List Nat)) :
    (dims.length ≤ spec.description.input.length →
      (∀ d ∈ dims, (specNormalizeShape d).isSome) →
      NeuralNetworkBuilder.set_input spec names dims =
        (none, { spec with description := { spec.description with
          input := specApplyInputShapes spec.description.input dims } })) ∧
    (dims.length ≤ spec.description.input.length →
      (dims.all fun d => (specNormalizeShape d).isSome) = false →
      (NeuralNetworkBuilder.set_input spec names dims).1 =
        some PyError.runtimeError) ∧
    (dims.length ≤ spec.description.output.length →
      NeuralNetworkBuilder.set_output spec names dims =
        (none, { spec with description := { spec.description with
          output := specApplyOutputShapes spec.description.output dims } })) := by
  refine ⟨fun hlen hall => ?_, fun hlen hbad => ?_, fun hlen => ?_⟩
  · unfold NeuralNetworkBuilder.set_input
    rw [setInputLoop_ok dims [] spec.description.input hall hlen]
    simp
  · unfold NeuralNetworkBuilder.set_input
    exact setInputLoop_err dims [] spec.description.input hbad hlen
  · unfold NeuralNetworkBuilder.set_output
    rw [setOutputLoop_ok dims [] spec.description.output hlen]
    simp

/-- A document with two inputs and one output, for the `set_input`
evaluation. -/
def mTwoIn : Model Int :=
  { specificationVersion := 1,
    description :=
      { input := [⟨"a", .unset⟩, ⟨"b", .unset⟩],
        output := [⟨"o", .unset⟩] } }

theorem set_interface_shapes_witness :
    NeuralNetworkBuilder.set_input mTwoIn ["a"] [[7, 5]] =
      (none, { mTwoIn with description := { mTwoIn.description with
        input := specApplyInputShapes mTwoIn.description.input [[7, 5]] } }) :=
  (set_interface_shapes mTwoIn ["a"] [[7, 5]]).1 (by decide) (by decide)

/-- Flexible form of the gate-slice equation: `W[0,0, lo:hi, :]` with
`lo = g*h`, `hi = g*h + h` on a tensor whose gate-stacked axis has length
`n*h` is exactly rows `[g*h:(g+1)*h]`. -/
theorem npSlice4_block {α : Type} (W : Tensor4 α) (h n lo hi g : Nat)
    (hd : W.d2 = n * h) (hlo : lo = g * h) (hhi : hi = g * h + h)
    (hg : g + 1 ≤ n) : npSlice4 W lo hi = specGateRows W h g := by
  subst hlo hhi
  unfold npSlice4 specGateRows
  have h2 : min (g * h + h) W.d2 = g * h + h := by
    rw [hd]
    have h3 := Nat.mul_le_mul_right h hg
    rw [Nat.succ_mul] at h3
    exact Nat.min_eq_left h3
  rw [h2]
  have h4 : g * h + h - g * h = h := by omega
  rw [h4]

theorem weightBlocks_lstmWithBiases {α : Type} (wp : LSTMWeightParams α)
    (v : List α) (h : Nat) :
    (lstmWithBiases wp v h).weightBlocks = wp.weightBlocks := rfl

theorem weightBlocks_lstmWithPeepholes {α : Type} (wp : LSTMWeightParams α)
    (v : List α) (h : Nat) :
    (lstmWithPeepholes wp v h).weightBlocks = wp.weightBlocks := rfl

theorem recursionBlocks_lstmWithBiases {α : Type} (wp : LSTMWeightParams α)
    (v : List α) (h : Nat) :
    (lstmWithBiases wp v h).recursionBlocks = wp.recursionBlocks := rfl

theorem recursionBlocks_lstmWithPeepholes {α : Type} (wp : LSTMWeightParams α)
    (v : List α) (h : Nat) :
    (lstmWithPeepholes wp v h).recursionBlocks = wp.recursionBlocks := rfl

/-- In every branch of `biLSTMMake` (valid activations assumed) the two
written weight-parameter blocks carry the gate matrices of the forward and
backward tensors respectively: extra bias/peephole writes never touch the
weight and recursion matrices. -/
theorem biLSTM_blocks {α : Type} [DecidableEq α] [Zero α]
    (hidden_size input_size : Nat) (W_h W_x W_h_back W_x_back : Tensor4 α)
    (inner_activation cell_state_update_activation output_activation : String)
    (b b_back peep peep_back : Option (List α))
    (output_all forget_bias coupled_input_forget_gate : Bool)
    (cell_clip_threshold : α) (fi fc fa : RecurrentActivation)
    (hi : set_recurrent_activation inner_activation = some fi)
    (hc : set_recurrent_activation cell_state_update_activation = some fc)
    (ha : set_recurrent_activation output_activation = some fa) :
    ((biLSTMMake hidden_size input_size W_h W_x W_h_back W_x_back
        inner_activation cell_state_update_activation output_activation
        b b_back peep peep_back output_all forget_bias
        coupled_input_forget_gate cell_clip_threshold).2.weightParams).map
        LSTMWeightParams.weightBlocks =
      [(lstmGateMatrices W_h W_x hidden_size).weightBlocks,
       (lstmGateMatrices W_h_back W_x_back hidden_size).weightBlocks] ∧
    ((biLSTMMake hidden_size input_size W_h W_x W_h_back W_x_back
        inner_activation cell_state_update_activation output_activation
        b b_back peep peep_back output_all forget_bias
        coupled_input_forget_gate cell_clip_threshold).2.weightParams).map
        LSTMWeightParams.recursionBlocks =
      [(lstmGateMatrices W_h W_x hidden_size).recursionBlocks,
       (lstmGateMatrices W_h_back W_x_back hidden_size).recursionBlocks] := by
  simp only [biLSTMMake, hi, hc, ha]
  rcases b_back with _ | bb <;>
    by_cases hb : npAnyOpt b = true <;>
    simp [hb, apply_ite, weightBlocks_lstmWithBiases, weightBlocks_lstmWithPeepholes,
      recursionBlocks_lstmWithBiases, recursionBlocks_lstmWithPeepholes]

/-- C2: for every `hidden_size ≥ 1` and combined weight tensors whose
gate-stacked axis has length `3*hidden_size` (GRU) resp. `4*hidden_size`
(LSTM), the block written for the gate with index `g` equals rows
`[g*h:(g+1)*h]` of the source tensor, in the fixed gate order
update, reset, output for the GRU and input, forget, output,
cell/block-input for the LSTM weights — for `add_gru`, `add_unilstm`, and
both directions of `add_bidirlstm` (the forward and backward tensors of the
bidirectional layer are quantified independently: the forward blocks slice
the forward tensors and the backward blocks the backward tensors). -/
theorem recurrent_gate_slicing {α : Type} [DecidableEq α] [Zero α]
    (hsize input_size : Nat) (hpos : 1 ≤ hsize)
    (W3x W3h W4x W4h W4xb W4hb : Tensor4 α)
    (h3x : W3x.d2 = 3 * hsize) (h3h : W3h.d2 = 3 * hsize)
    (h4x : W4x.d2 = 4 * hsize) (h4h : W4h.d2 = 4 * hsize)
    (h4xb : W4xb.d2 = 4 * hsize) (h4hb : W4hb.d2 = 4 * hsize)
    (b b_back peep peep_back : Option (List α))
    (act inner cellAct : String) (fa fi fc : RecurrentActivation)
    (ha : set_recurrent_activation act = some fa)
    (hi : set_recurrent_activation inner = some fi)
    (hc : set_recurrent_activation cellAct = some fc)
    (output_all reverse_input forget_bias coupled : Bool) (clip : α)
    (g3 g4 : Nat) (hg3 : g3 < 3) (hg4 : g4 < 4) :
    ((gruMake W3h W3x b act inner hsize input_size output_all
        reverse_input).2.weightBlocks)[g3]? =
      some (specGateRows W3x hsize g3) ∧
    ((gruMake W3h W3x b act inner hsize input_size output_all
        reverse_input).2.recursionBlocks)[g3]? =
      some (specGateRows W3h hsize g3) ∧
    ((uniLSTMMake hsize input_size W4h W4x inner cellAct act b peep output_all
        forget_bias coupled clip reverse_input).2.weightParams.weightBlocks)[g4]? =
      some (specGateRows W4x hsize g4) ∧
    ((uniLSTMMake hsize input_size W4h W4x inner cellAct act b peep output_all
        forget_bias coupled clip reverse_input).2.weightParams.recursionBlocks)[g4]? =
      some (specGateRows W4h hsize g4) ∧
    ((biLSTMMake hsize input_size W4h W4x W4hb W4xb inner cellAct act b b_back
        peep peep_back output_all forget_bias coupled clip).2.weightParams).map
        (fun wp => wp.weightBlocks[g4]?) =
      [some (specGateRows W4x hsize g4), some (specGateRows W4xb hsize g4)] ∧
    ((biLSTMMake hsize input_size W4h W4x W4hb W4xb inner cellAct act b b_back
        peep peep_back output_all forget_bias coupled clip).2.weightParams).map
        (fun wp => wp.recursionBlocks[g4]?) =
      [some (specGateRows W4h hsize g4), some (specGateRows W4hb hsize g4)] := by
  have e3x0 := npSlice4_block W3x hsize 3 0 hsize 0 h3x
    (by omega) (by omega) (by omega)
  have e3x1 := npSlice4_block W3x hsize 3 hsize (2 * hsize) 1 h3x
    (by omega) (by omega) (by omega)
  have e3x2 := npSlice4_block W3x hsize 3 (2 * hsize) (3 * hsize) 2 h3x
    (by omega) (by omega) (by omega)
  have e3h0 := npSlice4_block W3h hsize 3 0 hsize 0 h3h
    (by omega) (by omega) (by omega)
  have e3h1 := npSlice4_block W3h hsize 3 hsize (2 * hsize) 1 h3h
    (by omega) (by omega) (by omega)
  have e3h2 := npSlice4_block W3h hsize 3 (2 * hsize) (3 * hsize) 2 h3h
    (by omega) (by omega) (by omega)
  have e4x0 := npSlice4_block W4x hsize 4 0 hsize 0 h4x
    (by omega) (by omega) (by omega)
  have e4x1 := npSlice4_block W4x hsize 4 hsize (2 * hsize) 1 h4x
    (by omega) (by omega) (by omega)
  have e4x2 := npSlice4_block W4x hsize 4 (2 * hsize) (3 * hsize) 2 h4x
    (by omega) (by omega) (by omega)
  have e4x3 := npSlice4_block W4x hsize 4 (3 * hsize) (4 * hsize) 3 h4x
    (by omega) (by omega) (by omega)
  have e4h0 := npSlice4_block W4h hsize 4 0 hsize 0 h4h
    (by omega) (by omega) (by omega)
  have e4h1 := npSlice4_block W4h hsize 4 hsize (2 * hsize) 1 h4h
    (by omega) (by omega) (by omega)
  have e4h2 := npSlice4_block W4h hsize 4 (2 * hsize) (3 * hsize) 2 h4h
    (by omega) (by omega) (by omega)
  have e4h3 := npSlice4_block W4h hsize 4 (3 * hsize) (4 * hsize) 3 h4h
    (by omega) (by omega) (by omega)
  have e4xb0 := npSlice4_block W4xb hsize 4 0 hsize 0 h4xb
    (by omega) (by omega) (by omega)
  have e4xb1 := npSlice4_block W4xb hsize 4 hsize (2 * hsize) 1 h4xb
    (by omega) (by omega) (by omega)
  have e4xb2 := npSlice4_block W4xb hsize 4 (2 * hsize) (3 * hsize) 2 h4xb
    (by omega) (by omega) (by omega)
  have e4xb3 := npSlice4_block W4xb hsize 4 (3 * hsize) (4 * hsize) 3 h4xb
    (by omega) (by omega) (by omega)
  have e4hb0 := npSlice4_block W4hb hsize 4 0 hsize 0 h4hb
    (by omega) (by omega) (by omega)
  have e4hb1 := npSlice4_block W4hb hsize 4 hsize (2 * hsize) 1 h4hb
    (by omega) (by omega) (by omega)
  have e4hb2 := npSlice4_block W4hb hsize 4 (2 * hsize) (3 * hsize) 2 h4hb
    (by omega) (by omega) (by omega)
  have e4hb3 := npSlice4_block W4hb hsize 4 (3 * hsize) (4 * hsize) 3 h4hb
    (by omega) (by omega) (by omega)
  obtain ⟨hbw, hbr⟩ := biLSTM_blocks hsize input_size W4h W4x W4hb W4xb inner
    cellAct act b b_back peep peep_back output_all forget_bias coupled clip
    fi fc fa hi hc ha
  refine ⟨?_, ?_, ?_, ?_, ?_, ?_⟩
  · simp only [gruMake, hi, ha, GRULayerParams.weightBlocks]
    interval_cases g3 <;> simp [e3x0, e3x1, e3x2]
  · simp only [gruMake, hi, ha, GRULayerParams.recursionBlocks]
    interval_cases g3 <;> simp [e3h0, e3h1, e3h2]
  · simp only [uniLSTMMake, hi, hc, ha, LSTMWeightParams.weightBlocks]
    interval_cases g4 <;> simp [e4x0, e4x1, e4x2, e4x3]
  · simp only [uniLSTMMake, hi, hc, ha, LSTMWeightParams.recursionBlocks]
    interval_cases g4 <;> simp [e4h0, e4h1, e4h2, e4h3]
  · have hmap : ((biLSTMMake hsize input_size W4h W4x W4hb W4xb inner cellAct act
        b b_back peep peep_back output_all forget_bias coupled
        clip).2.weightParams).map (fun wp => wp.weightBlocks[g4]?) =
        (((biLSTMMake hsize input_size W4h W4x W4hb W4xb inner cellAct act
          b b_back peep peep_back output_all forget_bias coupled
          clip).2.weightParams).map LSTMWeightParams.weightBlocks).map
          (fun blocks => blocks[g4]?) := by
      rw [List.map_map]; rfl
    rw [hmap, hbw]
    simp only [List.map_cons, List.map_nil, lstmGateMatrices,
      LSTMWeightParams.weightBlocks]
    interval_cases g4 <;> simp [e4x0, e4x1, e4x2, e4x3, e4xb0, e4xb1, e4xb2, e4xb3]
  · have hmap : ((biLSTMMake hsize input_size W4h W4x W4hb W4xb inner cellAct act
        b b_back peep peep_back output_all forget_bias coupled
        clip).2.weightParams).map (fun wp => wp.recursionBlocks[g4]?) =
        (((biLSTMMake hsize input_size W4h W4x W4hb W4xb inner cellAct act
          b b_back peep peep_back output_all forget_bias coupled
          clip).2.weightParams).map LSTMWeightParams.recursionBlocks).map
          (fun blocks => blocks[g4]?) := by
      rw [List.map_map]; rfl
    rw [hmap, hbr]
    simp only [List.map_cons, List.map_nil, lstmGateMatrices,
      LSTMWeightParams.recursionBlocks]
    interval_cases g4 <;> simp [e4h0, e4h1, e4h2, e4h3, e4hb0, e4hb1, e4hb2, e4hb3]

/-- A concrete gate-stacked tensor of shape `(1, 1, 3, 2)` (three gates of
one row, two columns). -/
def t3Gate : Tensor4 Int := ⟨1, 1, 3, 2, fun _ _ k l => 1 + 10 * (k : Int) + l⟩

/-- A concrete gate-stacked tensor of shape `(1, 1, 4, 2)` (four gates of
one row, two columns). -/
def t4Gate : Tensor4 Int := ⟨1, 1, 4, 2, fun _ _ k l => 1 + 10 * (k : Int) + l⟩

/-- A second concrete gate-stacked tensor of shape `(1, 1, 4, 2)`, with
entries disjoint from `t4Gate`, used as the backward tensor pair. -/
def t4GateB : Tensor4 Int :=
  ⟨1, 1, 4, 2, fun _ _ k l => 500 + 100 * (k : Int) + 3 * l⟩

theorem recurrent_gate_slicing_witness :
    ((gruMake t3Gate t3Gate none "TANH" "SIGMOID" 1 2 false false).2.weightBlocks)[1]? =
      some (specGateRows t3Gate 1 1) ∧
    ((gruMake t3Gate t3Gate none "TANH" "SIGMOID" 1 2 false false).2.recursionBlocks)[1]? =
      some (specGateRows t3Gate 1 1) ∧
    ((uniLSTMMake 1 2 t4Gate t4Gate "SIGMOID" "TANH" "TANH" none none false
        false false 50 false).2.weightParams.weightBlocks)[2]? =
      some (specGateRows t4Gate 1 2) ∧
    ((uniLSTMMake 1 2 t4Gate t4Gate "SIGMOID" "TANH" "TANH" none none false
        false false 50 false).2.weightParams.recursionBlocks)[2]? =
      some (specGateRows t4Gate 1 2) ∧
    ((biLSTMMake 1 2 t4Gate t4Gate t4GateB t4GateB "SIGMOID" "TANH" "TANH" none
        none none none false false false 50).2.weightParams).map
        (fun wp => wp.weightBlocks[2]?) =
      [some (specGateRows t4Gate 1 2), some (specGateRows t4GateB 1 2)] ∧
    ((biLSTMMake 1 2 t4Gate t4Gate t4GateB t4GateB "SIGMOID" "TANH" "TANH" none
        none none none false false false 50).2.weightParams).map
        (fun wp => wp.recursionBlocks[2]?) =
      [some (specGateRows t4Gate 1 2), some (specGateRows t4GateB 1 2)] :=
  recurrent_gate_slicing 1 2 (by decide) t3Gate t3Gate t4Gate t4Gate t4GateB
    t4GateB rfl rfl rfl rfl rfl rfl none none none none "TANH" "SIGMOID"
    "TANH" .tanh .sigmoid .tanh (by decide) (by decide) (by decide) false
    false false false 50 1 2 (by decide) (by decide)

/-- C7: evaluation at the failing input.  `add_bidirlstm` with `b = None`
and a *non-zero* backward bias `b_back = [7]` returns without error, but the
serialized layer omits the backward bias entirely (no has-bias flag, no
values): the source guards the `b_back` writes with
`if b is not None and b.any():` — the forward bias, not `b_back`. -/
theorem bidirlstm_backward_bias_dropped :
    (NeuralNetworkBuilder.add_bidirlstm emptyModel "L" 1 1 ["i"] ["o"] t4Gate
      t4Gate t4Gate t4Gate "SIGMOID" "TANH" "TANH" none (some [7]) none none
      false false false 50).1 = none ∧
    npAnyOpt (some [(7 : Int)]) = true ∧
    ((NeuralNetworkBuilder.add_bidirlstm emptyModel "L" 1 1 ["i"] ["o"] t4Gate
      t4Gate t4Gate t4Gate "SIGMOID" "TANH" "TANH" none (some [7]) none none
      false false false 50).2.lastBidirLSTM).map
      (fun p => (p.params.hasBiasVectors,
                 p.weightParams.map LSTMWeightParams.allBiases)) =
      some (false, [[], []]) := by
  decide

/-- C9 counterexample: `add_elementwise` with a single input name and mode
`'DOT'` does not fail — it returns without error and appends one layer
carrying the single input, contradicting "exactly 2 input names when the
mode is 'DOT'... any call violating these arities fails without appending a
layer". -/
theorem add_elementwise_no_arity_check :
    (NeuralNetworkBuilder.add_elementwise emptyModel "d" ["x"] "o" "DOT").1 = none ∧
    (NeuralNetworkBuilder.add_elementwise emptyModel "d" ["x"] "o" "DOT").2.layers =
      [⟨"d", ["x"], ["o"], .dot false⟩] := by
  decide

/-- C9 (amended): `add_elementwise` performs no arity validation at all: for
every supported mode and *every* list of input names (of any length,
including fewer than 2, and any length for 'DOT'/'COS'), the call succeeds
and appends exactly one layer carrying the input names verbatim, with the
parameter variant determined by the mode; only an unsupported mode fails
(with `ValueError`, and even then a parameterless layer has been appended). -/
theorem add_elementwise_appends_verbatim {α : Type} (spec : Model α)
    (name : String) (input_names : List String) (output_name mode : String)
    (hmode : mode ∈ ["CONCAT", "SEQUENCE_CONCAT", "ADD", "MULTIPLY", "COS",
      "DOT", "MAX", "AVE"]) :
    NeuralNetworkBuilder.add_elementwise spec name input_names output_name mode =
      (none, spec.appendLayer
        ⟨name, input_names, [output_name], (elementwiseParamsOf mode).2⟩) ∧
    (elementwiseParamsOf (α := α) mode).2.kind = elementwiseKind mode ∧
    elementwiseKind mode ≠ LayerKind.unset := by
  fin_cases hmode <;> exact ⟨rfl, rfl, by decide⟩

theorem add_elementwise_appends_verbatim_witness :
    NeuralNetworkBuilder.add_elementwise emptyModel "e" ["x", "y", "z"] "o" "ADD" =
      (none, emptyModel.appendLayer
        ⟨"e", ["x", "y", "z"], ["o"], (elementwiseParamsOf "ADD").2⟩) ∧
    (elementwiseParamsOf (α := Int) "ADD").2.kind = elementwiseKind "ADD" ∧
    elementwiseKind "ADD" ≠ LayerKind.unset :=
  add_elementwise_appends_verbatim emptyModel "e" ["x", "y", "z"] "o" "ADD"
    (by decide)

/-- On the success path of `elementwiseParamsOf` the written parameter
variant matches the mode's kind tag and is populated. -/
theorem elementwise_ok {α : Type} (mode : String)
    (h : (elementwiseParamsOf (α := α) mode).1 = none) :
    (elementwiseParamsOf (α := α) mode).2.kind = elementwiseKind mode ∧
    elementwiseKind mode ≠ LayerKind.unset := by
  unfold elementwiseParamsOf elementwiseKind at *
  split_ifs at h ⊢ <;> simp_all [LayerParams.kind]

/-- Each successful factory call either is `add_dropout` and leaves the
document unchanged, or appends exactly one layer whose single populated
parameter variant matches the call's kind tag. -/
theorem applyCall_layers {α : Type} [DecidableEq α] [Zero α]
    (spec spec' : Model α) (c : FactoryCall α)
    (h : applyCall spec c = (none, spec')) :
    (c.isDropout = true ∧ spec' = spec) ∨
    (c.isDropout = false ∧ ∃ l, spec'.layers = spec.layers ++ [l] ∧
      l.params.kind = c.kind ∧ l.params.kind ≠ LayerKind.unset) := by
  have h2 : spec' = (applyCall spec c).2 := (congrArg Prod.snd h).symm
  subst h2
  cases c with
  | dropout name i o =>
    exact Or.inl ⟨rfl, rfl⟩
  | innerProduct name W Wb nB nC hb i o =>
    exact Or.inr ⟨rfl, _, rfl, rfl, fun hx => nomatch hx⟩
  | elementwise name ins out mode =>
    have h1 : (elementwiseParamsOf (α := α) mode).1 = none := congrArg Prod.fst h
    obtain ⟨hk, hne⟩ := elementwise_ok mode h1
    refine Or.inr ⟨rfl, ⟨name, ins, [out], (elementwiseParamsOf mode).2⟩,
      rfl, hk, ?_⟩
    show (elementwiseParamsOf (α := α) mode).2.kind ≠ LayerKind.unset
    rw [hk]; exact hne
  | convolution name kc oc hh ww sh sw bm g W b hb dec os i o =>
    exact Or.inr ⟨rfl, _, rfl, rfl, fun hx => nomatch hx⟩
  | vanillaRNN name W_h W_x b act hs is ins outs oa ri =>
    exact Or.inr ⟨rfl, _, rfl, rfl, fun hx => nomatch hx⟩
  | gru name W_h W_x b act iact hs is ins outs oa ri =>
    exact Or.inr ⟨rfl, _, rfl, rfl, fun hx => nomatch hx⟩
  | unilstm name hs is ins outs W_h W_x ia ca oa2 b p oall fb cif clip ri =>
    exact Or.inr ⟨rfl, _, rfl, rfl, fun hx => nomatch hx⟩
  | bidirlstm name hs is ins outs W_h W_x W_hb W_xb ia ca oa2 b bb p pb oall fb cif clip =>
    exact Or.inr ⟨rfl, _, rfl, rfl, fun hx => nomatch hx⟩

/-- C8 (amended): a sequence of `N` factory calls that all return without
error appends, in call order, exactly one layer per call *except* for
`add_dropout` calls, which append none; each appended layer has exactly one
populated parameter variant, matching the operation that created it.  (The
original claim — layer-list length exactly `N` — fails as soon as the
sequence contains an `add_dropout` call.) -/
theorem runCalls_kinds {α : Type} [DecidableEq α] [Zero α]
    (calls : List (FactoryCall α)) :
    ∀ spec spec' : Model α, runCalls spec calls = (none, spec') →
      ∃ new : List (Layer α),
        spec'.layers = spec.layers ++ new ∧
        new.map (fun l => l.params.kind) =
          (calls.filter fun c => !c.isDropout).map FactoryCall.kind ∧
        ∀ l ∈ new, l.params.kind ≠ LayerKind.unset := by
  induction calls with
  | nil =>
    intro spec spec' h
    injection h with h1 h2
    exact ⟨[], by simp [h2], by simp, by simp⟩
  | cons c rest ih =>
    intro spec spec' h
    simp only [runCalls] at h
    split at h
    next spec1 heq =>
      obtain ⟨new, hlay, hmap, hunset⟩ := ih spec1 spec' h
      rcases applyCall_layers spec spec1 c heq with ⟨hd, rfl⟩ | ⟨hd, l, hl, hk, hne⟩
      · refine ⟨new, hlay, ?_, hunset⟩
        rw [List.filter_cons_of_neg (by simp [hd])]
        exact hmap
      · refine ⟨l :: new, ?_, ?_, ?_⟩
        · rw [hlay, hl, List.append_assoc]
          rfl
        · rw [List.filter_cons_of_pos (by simp [hd])]
          simp only [List.map_cons]
          rw [hmap, hk]
        · intro x hx
          rcases List.mem_cons.mp hx with rfl | hx2
          · exact hne
          · exact hunset x hx2
    next e spec1 heq =>
      exact absurd (congrArg Prod.fst h) (by simp)

/-- C8 counterexample: a sequence of one factory call (`add_dropout`) that
returns without error yields a layer list of length 0, not 1. -/
theorem runCalls_dropout_no_layer :
    runCalls emptyModel [FactoryCall.dropout "d" "i" "o"] = (none, emptyModel) ∧
    (runCalls emptyModel [FactoryCall.dropout "d" "i" "o"]).2.layers.length = 0 := by
  decide

/-- A concrete sequence of three factory calls, one of them a dropout. -/
def csW : List (FactoryCall Int) :=
  [.innerProduct "ip" [1, 2, 3] [4] 3 1 true "a" "b",
   .dropout "drop" "b" "c",
   .elementwise "e" ["c", "a"] "d" "ADD"]

theorem runCalls_kinds_witness :
    ∃ new : List (Layer Int),
      (runCalls emptyModel csW).2.layers = emptyModel.layers ++ new ∧
      new.map (fun l => l.params.kind) =
        (csW.filter fun c => !c.isDropout).map FactoryCall.kind ∧
      ∀ l ∈ new, l.params.kind ≠ LayerKind.unset :=
  runCalls_kinds csW emptyModel (runCalls emptyModel csW).2 (by rfl)
